import Mathlib

/-
Verification development for the script-snips API controller
(src/api/controllers/scriptController.ts, authoritative revision in
src/unnamed/part_009) and the AppError branch of the central error handler
(src/api/middleware/errorHandler.ts).

The controller functions getAllScripts, getRandomScript and getRandomScripts
are embedded as pure Lean functions over a list model of the script_snips
table.  JavaScript-specific behaviour is modelled explicitly:
parseInt(s, 10) returns an optional integer (none standing for NaN), the
expression (v || d) treats undefined and the empty string as falsy,
Math.random() is modelled as a rational num / den with num < den, and the
store-side ORDER BY RANDOM() primitive is a caller-supplied reordering of the
row list.  Raw SQL construction through the tagged-template helper is
modelled as a list of raw text fragments and bound parameters.
-/

namespace ScriptSnipsApi

/-- Decimal value of a digit run, most significant first. -/
def digitsVal (ds : List Char) : Nat :=
  ds.foldl (fun acc c => acc * 10 + (c.toNat - 48)) 0

/-- Model of JavaScript parseInt(s, 10): skip leading whitespace, read an
optional sign, then a maximal run of decimal digits; none models NaN (no
digit read), otherwise the signed value of the digits read, any trailing
non-digit characters being ignored exactly as parseInt ignores them. -/
def parseIntJs (s : String) : Option Int :=
  let cs := s.toList.dropWhile Char.isWhitespace
  match cs with
  | [] => none
  | c :: rest =>
    if c = '-' then
      let ds := rest.takeWhile Char.isDigit
      if ds.isEmpty then none else some (-(digitsVal ds : Int))
    else if c = '+' then
      let ds := rest.takeWhile Char.isDigit
      if ds.isEmpty then none else some ((digitsVal ds : Int))
    else
      let ds := cs.takeWhile Char.isDigit
      if ds.isEmpty then none else some ((digitsVal ds : Int))

/-- Model of the JavaScript expression (v || d) for an optional string query
parameter: undefined and the empty string are falsy and select the default. -/
def jsOr (v : Option String) (d : String) : String :=
  match v with
  | none => d
  | some s => if s = "" then d else s

/-- Model of String.prototype.toLowerCase restricted to the character-wise
lowering that the controller relies on for the sortOrder allow-list. -/
def toLowerJs (s : String) : String :=
  String.mk (s.toList.map Char.toLower)

/-- Model of String.prototype.trim: whitespace stripped from both ends. -/
def jsTrim (s : String) : String :=
  String.mk (((s.toList.dropWhile Char.isWhitespace).reverse.dropWhile
    Char.isWhitespace).reverse)

/-- Model of String.prototype.split with a single-character separator,
structurally recursive so that it evaluates inside the kernel. -/
def splitOnChar (sep : Char) : List Char → List (List Char)
  | [] => [[]]
  | c :: rest =>
    if c = sep then [] :: splitOnChar sep rest
    else
      match splitOnChar sep rest with
      | [] => [[c]]
      | h :: t => (c :: h) :: t

/-- Comma split of a string, the model of excludeIdsQuery.split(",") in the
controller. -/
def splitCommas (s : String) : List String :=
  (splitOnChar ',' s.toList).map String.mk

/-- One dialogue line of a stored script. -/
structure ScriptLine where
  character : String
  dialogue : String
  deriving DecidableEq, Repr

/-- One row of the script_snips table. -/
structure Script where
  id : String
  title : String
  characters : List String
  lines : List ScriptLine
  createdAt : Nat
  deriving DecidableEq, Repr

/-- Pagination block of the listing response, field for field as serialized
by the controller; totalItems and totalPages are optional integers because
the JavaScript count extraction can produce NaN, modelled as none. -/
structure Pagination where
  totalItems : Option Int
  currentPage : Int
  totalPages : Option Int
  pageSize : Int
  sortBy : String
  sortOrder : String
  deriving DecidableEq, Repr

/-- Body of the 200 listing response. -/
structure ListResponse where
  data : List Script
  pagination : Pagination
  deriving DecidableEq, Repr

/-- JSON bodies produced by the routes under study.  The errorMsg
constructor models a body keyed by error, the messageMsg constructor a body
keyed by message; the two shapes are distinct by construction. -/
inductive JsonBody where
  | script : Script → JsonBody
  | scripts : List Script → JsonBody
  | listing : ListResponse → JsonBody
  | errorMsg : String → JsonBody
  | messageMsg : String → JsonBody
  deriving DecidableEq, Repr

/-- An HTTP response: status code plus JSON body. -/
structure HttpResponse where
  status : Nat
  body : JsonBody
  deriving DecidableEq, Repr

/-- The AppError class of the error-handler middleware: message and status
code. -/
structure AppError where
  message : String
  statusCode : Nat
  deriving DecidableEq, Repr

/-- AppError branch of the central errorHandler middleware: the response
status is the statusCode of the error and the body is keyed by error. -/
def errorHandlerAppError (e : AppError) : HttpResponse :=
  { status := e.statusCode, body := JsonBody.errorMsg e.message }

/-- Routing of a controller outcome through the central error handler: an
error passed to next is translated by errorHandlerAppError, a direct
response is returned unchanged. -/
def handle (r : Except AppError HttpResponse) : HttpResponse :=
  match r with
  | Except.error e => errorHandlerAppError e
  | Except.ok resp => resp

/-- Query parameters of the listing route, each optional. -/
structure ListQuery where
  page : Option String
  limit : Option String
  search : Option String
  sortBy : Option String
  sortOrder : Option String
  deriving DecidableEq, Repr

/-- Allow-list for the sortBy parameter, controller line 71. -/
def allowedSortFields : List String := ["title", "createdAt"]

/-- Extraction and allow-list fallback for sortBy, controller lines 75-79. -/
def normalizeSortBy (v : Option String) : String :=
  if allowedSortFields.contains (jsOr v "createdAt") then jsOr v "createdAt"
  else "createdAt"

/-- Extraction, lowercasing and fallback for sortOrder, controller lines
81-84. -/
def normalizeSortOrder (v : Option String) : String :=
  if toLowerJs (jsOr v "desc") ≠ "asc" ∧ toLowerJs (jsOr v "desc") ≠ "desc" then
    "desc"
  else toLowerJs (jsOr v "desc")

/-- Construction of the ILIKE pattern, controller line 68: percent wildcards
around the search text when the search parameter is truthy. -/
def mkSearchTerm (search : Option String) : Option String :=
  match search with
  | none => none
  | some s => if s = "" then none else some ("%" ++ s ++ "%")

/-- Case-insensitive substring test: the row semantics of SQL ILIKE with a
percent-wrapped pattern, the search text taken literally. -/
def containsCI (hay pat : String) : Bool :=
  decide ((toLowerJs pat).toList <:+: (toLowerJs hay).toList)

/-- Row semantics of the dynamic WHERE clause, controller lines 99-108: every
row matches when the search parameter is falsy, otherwise the three-way
ILIKE disjunction over title, characters and line dialogues. -/
def matchesSearch (search : Option String) (s : Script) : Bool :=
  match search with
  | none => true
  | some t =>
    if t = "" then true
    else
      containsCI s.title t || s.characters.any (fun c => containsCI c t) ||
        s.lines.any (fun l => containsCI l.dialogue t)

/-- Lexicographic comparison of character lists, the text collation used by
the model for ORDER BY on LOWER(title). -/
def charListLe : List Char → List Char → Bool
  | [], _ => true
  | _ :: _, [] => false
  | a :: as, b :: bs => if a = b then charListLe as bs else decide (a < b)

/-- Row comparison of the ORDER BY clause, controller lines 111-119: primary
key LOWER(title) under title sort, otherwise createdAt, in the requested
direction. -/
def rowLe (sortBy sortOrder : String) (a b : Script) : Bool :=
  if sortBy = "title" then
    if sortOrder = "asc" then
      charListLe (toLowerJs a.title).toList (toLowerJs b.title).toList
    else charListLe (toLowerJs b.title).toList (toLowerJs a.title).toList
  else
    if sortOrder = "asc" then decide (a.createdAt ≤ b.createdAt)
    else decide (b.createdAt ≤ a.createdAt)

/-- Stable insertion of a row into a list already ordered by le. -/
def insertRow (le : Script → Script → Bool) (a : Script) :
    List Script → List Script
  | [] => [a]
  | b :: rest => if le a b then a :: b :: rest else b :: insertRow le a rest

/-- Row semantics of the ORDER BY clause applied to the stored rows: a stable
sort by the validated comparison (the store may pick any order consistent
with the comparison; a stable insertion sort is one such choice). -/
def sortRows (sortBy sortOrder : String) (rows : List Script) : List Script :=
  rows.foldr (insertRow (rowLe sortBy sortOrder)) []

/-- JavaScript value standing in the count property of a raw count-query
row: the postgres driver returns a BigInt for COUNT, but the code defends
against other shapes, so a string-valued property is also modelled. -/
inductive JsVal where
  | bigint : Int → JsVal
  | str : String → JsVal
  deriving DecidableEq, Repr

/-- Model of parseInt(String(v), 10): stringifying a BigInt and parsing it
back recovers it exactly; a string value goes through parseIntJs and can
yield NaN. -/
def stringifyParseInt : JsVal → Option Int
  | JsVal.bigint n => some n
  | JsVal.str s => parseIntJs s

/-- First element of a raw count-query result viewed as a JavaScript value:
nullish, or an object whose count property is absent or holds a value. -/
inductive JsCountRow where
  | nullish : JsCountRow
  | obj : Option JsVal → JsCountRow
  deriving DecidableEq, Repr

/-- A raw count-query result viewed as a JavaScript value. -/
inductive JsCountResult where
  | notArray : JsCountResult
  | array : List JsCountRow → JsCountResult
  deriving DecidableEq, Repr

/-- Count extraction, controller lines 142-159: the shape check
Array.isArray, non-empty, truthy first element, count property defined, then
parseInt(String(count), 10).  parseInt never throws, so the catch arm that
would default to 0 is unreachable and an unparseable value yields NaN,
modelled as none; any failed shape check defaults to 0. -/
def extractTotalScripts : JsCountResult → Option Int
  | JsCountResult.array (JsCountRow.obj (some v) :: _) => stringifyParseInt v
  | _ => some 0

/-- Model of Math.ceil(a / b) for an integer a and a positive integer b,
expressed with integer floor division. -/
def jsCeilDiv (a b : Int) : Int := -(-a / b)

/-- Result shaping of getAllScripts, controller lines 142-176: count
extraction, total pages via Math.ceil, and the 200 response body. -/
def getAllScriptsRaw (page limit : Int) (sortBy sortOrder : String)
    (dataResult : List Script) (countResult : JsCountResult) : HttpResponse :=
  let totalScripts := extractTotalScripts countResult
  let totalPages := totalScripts.map (fun n => jsCeilDiv n limit)
  { status := 200,
    body := JsonBody.listing
      { data := dataResult,
        pagination :=
          { totalItems := totalScripts, currentPage := page,
            totalPages := totalPages, pageSize := limit,
            sortBy := sortBy, sortOrder := sortOrder } } }

/-- Validation message of controller line 89. -/
def invalidPaginationMsg : String :=
  "Invalid pagination parameters. Page and limit must be positive integers."

/-- Controller getAllScripts, lines 61-182, over a list model of the
script_snips table: parameter extraction and normalization, pagination
validation with failure passed to next before any query, then the data and
count queries interpreted over the row list and the shaping of the
response. -/
def getAllScripts (q : ListQuery) (db : List Script) :
    Except AppError HttpResponse :=
  let page := parseIntJs (jsOr q.page "1")
  let limit := parseIntJs (jsOr q.limit "10")
  let sortBy := normalizeSortBy q.sortBy
  let sortOrder := normalizeSortOrder q.sortOrder
  match page, limit with
  | some p, some l =>
    if p < 1 ∨ l < 1 then
      Except.error { message := invalidPaginationMsg, statusCode := 400 }
    else
      let skip := (p - 1) * l
      let matching := db.filter (matchesSearch q.search)
      let dataResult :=
        ((sortRows sortBy sortOrder matching).drop skip.toNat).take l.toNat
      let countResult :=
        JsCountResult.array
          [JsCountRow.obj (some (JsVal.bigint (matching.length : Int)))]
      Except.ok (getAllScriptsRaw p l sortBy sortOrder dataResult countResult)
  | _, _ =>
    Except.error { message := invalidPaginationMsg, statusCode := 400 }

/-- Spec-side predicate of claim C1: page or limit fails to parse to an
integer (NaN) or parses below 1, after the JavaScript defaulting of absent
or empty values to 1 and 10. -/
def paginationParamsBad (q : ListQuery) : Bool :=
  match parseIntJs (jsOr q.page "1"), parseIntJs (jsOr q.limit "10") with
  | some p, some l => decide (p < 1 ∨ l < 1)
  | _, _ => true

/-- A parameter bound into a raw query. -/
inductive SqlParam where
  | strv : String → SqlParam
  | intv : Int → SqlParam
  deriving DecidableEq, Repr

/-- One piece of a raw query built with the tagged-template helper: a raw
text fragment (template text or a fragment spliced through the raw escape
hatch) or a bound parameter. -/
inductive SqlPart where
  | raw : String → SqlPart
  | bound : SqlParam → SqlPart
  deriving DecidableEq, Repr

/-- Single-quote character, written by code point to keep the embedded SQL
fragments faithful to the source text. -/
def sq : String := String.singleton (Char.ofNat 39)

/-- Construction of the dynamic WHERE clause of the listing queries,
controller lines 99-108: match-all without a search term, otherwise the
three-way ILIKE disjunction with the search term bound at every value
position. -/
def whereClauseSql (searchTerm : Option String) : List SqlPart :=
  match searchTerm with
  | none => [SqlPart.raw "WHERE 1=1"]
  | some t =>
    [SqlPart.raw "WHERE title ILIKE ",
     SqlPart.bound (SqlParam.strv t),
     SqlPart.raw
       " OR EXISTS (SELECT 1 FROM unnest(characters) AS char WHERE char ILIKE ",
     SqlPart.bound (SqlParam.strv t),
     SqlPart.raw
       (") OR EXISTS (SELECT 1 FROM jsonb_array_elements(lines) AS line WHERE line->>"
         ++ sq ++ "dialogue" ++ sq ++ " ILIKE "),
     SqlPart.bound (SqlParam.strv t),
     SqlPart.raw ")"]

/-- Construction of the ORDER BY clause, controller lines 111-119: fixed
structural text, with the validated direction spliced in raw through
Prisma.raw. -/
def orderBySql (sortBy sortOrder : String) : List SqlPart :=
  if sortBy = "title" then
    [SqlPart.raw "ORDER BY LOWER(\"title\") ", SqlPart.raw sortOrder]
  else
    [SqlPart.raw "ORDER BY \"createdAt\" ", SqlPart.raw sortOrder]

/-- Construction of the page query, controller lines 122-127. -/
def dataQuerySql (searchTerm : Option String) (sortBy sortOrder : String)
    (limit skip : Int) : List SqlPart :=
  [SqlPart.raw "SELECT * FROM script_snips "]
    ++ whereClauseSql searchTerm
    ++ orderBySql sortBy sortOrder
    ++ [SqlPart.raw " LIMIT ", SqlPart.bound (SqlParam.intv limit),
        SqlPart.raw " OFFSET ", SqlPart.bound (SqlParam.intv skip),
        SqlPart.raw ";"]

/-- Construction of the count query, controller lines 130-133. -/
def countQuerySql (searchTerm : Option String) : List SqlPart :=
  [SqlPart.raw "SELECT COUNT(*) FROM script_snips "]
    ++ whereClauseSql searchTerm
    ++ [SqlPart.raw ";"]

/-- Closed list of every text fragment the listing queries may hold in raw
position; the only entries selected by request input are the two
pre-validated direction literals. -/
def listingAllowedRaw : List String :=
  ["SELECT * FROM script_snips ",
   "SELECT COUNT(*) FROM script_snips ",
   "WHERE 1=1",
   "WHERE title ILIKE ",
   " OR EXISTS (SELECT 1 FROM unnest(characters) AS char WHERE char ILIKE ",
   ") OR EXISTS (SELECT 1 FROM jsonb_array_elements(lines) AS line WHERE line->>"
     ++ sq ++ "dialogue" ++ sq ++ " ILIKE ",
   ")",
   "ORDER BY LOWER(\"title\") ",
   "ORDER BY \"createdAt\" ",
   "asc", "desc",
   " LIMIT ", " OFFSET ", ";"]

/-- Random offset chosen at controller line 213, the floor of
Math.random() * count with Math.random() modelled as the rational
num / den where num < den. -/
def randomIndex (num den count : Nat) : Nat := num * count / den

/-- Controller getRandomScript, lines 204-226: the collection is read twice,
once for the count and once for the fetch at the random offset, so the model
takes the row list at each of the two instants to expose the documented race
window; findFirst with a skip yields the first row after dropping that many
rows. -/
def getRandomScript (dbCount dbFetch : List Script) (num den : Nat) :
    Except AppError HttpResponse :=
  let count := dbCount.length
  if count = 0 then
    Except.error
      { message := "No scripts available to choose from.", statusCode := 404 }
  else
    match (dbFetch.drop (randomIndex num den count)).head? with
    | none =>
      Except.error
        { message := "Failed to retrieve a random script.", statusCode := 500 }
    | some s => Except.ok { status := 200, body := JsonBody.script s }

/-- Outcome of the count-parameter handling of getRandomScripts. -/
inductive CountParse where
  | shortCircuit : CountParse
  | invalid : CountParse
  | value : Int → CountParse
  deriving DecidableEq, Repr

/-- Count-parameter handling of getRandomScripts, controller lines 231-248:
a falsy parameter leaves the default 3; a value parsing to 0 short-circuits
to the empty success; NaN or a negative value is invalid; otherwise the
parsed value is used. -/
def parseCountParam (v : Option String) : CountParse :=
  match v with
  | none => CountParse.value 3
  | some s =>
    if s = "" then CountParse.value 3
    else
      match parseIntJs s with
      | some n =>
        if n = 0 then CountParse.shortCircuit
        else if n < 0 then CountParse.invalid
        else CountParse.value n
      | none => CountParse.invalid

/-- excludeIds handling, controller line 252: a falsy parameter yields the
empty list, otherwise comma split, trim, drop empty segments. -/
def parseExcludeIds (v : Option String) : List String :=
  match v with
  | none => []
  | some s =>
    if s = "" then []
    else ((splitCommas s).map jsTrim).filter (fun t => ¬ t = "")

/-- Validation message of controller line 245. -/
def invalidCountMsg : String :=
  "Invalid count parameter. Must be a positive integer."

/-- Construction of the WHERE clause of the sampling query, controller lines
266-272: the exclusion list joined as bound parameters when non-empty,
otherwise match-all. -/
def randomWhereSql (excludeIds : List String) : List SqlPart :=
  if excludeIds.length > 0 then
    [SqlPart.raw "WHERE id NOT IN ("]
      ++ excludeIds.map (fun i => SqlPart.bound (SqlParam.strv i))
      ++ [SqlPart.raw ")"]
  else [SqlPart.raw "WHERE 1=1"]

/-- Controller getRandomScripts, lines 230-293, over a list model of the
table: count handling, exclusion parsing, empty-population check against the
unfiltered count, clamp of the limit to the total count, then the sampling
query whose ORDER BY RANDOM() primitive is modelled by the shuffle argument,
a store-chosen reordering applied to the filtered rows. -/
def getRandomScripts (countParam excludeIdsParam : Option String)
    (db : List Script) (shuffle : List Script → List Script) :
    Except AppError HttpResponse :=
  match parseCountParam countParam with
  | CountParse.shortCircuit =>
    Except.ok { status := 200, body := JsonBody.scripts [] }
  | CountParse.invalid =>
    Except.error { message := invalidCountMsg, statusCode := 400 }
  | CountParse.value count =>
    let excludeIds := parseExcludeIds excludeIdsParam
    let totalCount := db.length
    if totalCount = 0 then
      Except.ok
        { status := 404,
          body := JsonBody.messageMsg "No scripts available in the database." }
    else
      let limitCount := min count (totalCount : Int)
      let filtered :=
        if excludeIds.length > 0 then
          db.filter (fun s => !(excludeIds.contains s.id))
        else db
      let randomScripts := (shuffle filtered).take limitCount.toNat
      Except.ok { status := 200, body := JsonBody.scripts randomScripts }

/-- Sample rows used by the witness theorems. -/
def script1 : Script :=
  { id := "id1", title := "Beta", characters := ["Ann"],
    lines := [{ character := "Ann", dialogue := "hello there" }],
    createdAt := 1 }

/-- Second sample row. -/
def script2 : Script :=
  { id := "id2", title := "Alpha", characters := ["Bob"],
    lines := [{ character := "Bob", dialogue := "general greeting" }],
    createdAt := 2 }

/-- Third sample row. -/
def script3 : Script :=
  { id := "id3", title := "Gamma", characters := ["Cyn"],
    lines := [{ character := "Cyn", dialogue := "farewell" }],
    createdAt := 3 }

lemma randomIndex_lt (num den count : Nat) (h : num < den) (hc : 0 < count) :
    randomIndex num den count < count := by
  have hden : 0 < den := Nat.lt_of_le_of_lt (Nat.zero_le _) h
  refine (Nat.div_lt_iff_lt_mul hden).mpr ?_
  exact (Nat.mul_lt_mul_of_lt_of_le h (Nat.le_refl count) hc).trans_le
    (Nat.le_of_eq (Nat.mul_comm den count))

/-- C1: a listing request whose page or limit is NaN or below 1 after
defaulting fails with the pagination ValidationError, surfaced as a 400
error body, for every store state alike (so before any store query); when
both parse to at least 1 the error is never raised and the request
succeeds. -/
theorem claim_C1 (q : ListQuery) (db : List Script) :
    (paginationParamsBad q = true →
      getAllScripts q db =
        Except.error { message := invalidPaginationMsg, statusCode := 400 } ∧
      handle (getAllScripts q db) =
        { status := 400, body := JsonBody.errorMsg invalidPaginationMsg }) ∧
    (paginationParamsBad q = false → (getAllScripts q db).isOk = true) := by
  unfold paginationParamsBad getAllScripts
  cases hp : parseIntJs (jsOr q.page "1") with
  | none => simp [handle, errorHandlerAppError]
  | some p =>
    cases hl : parseIntJs (jsOr q.limit "10") with
    | none => simp [handle, errorHandlerAppError]
    | some l =>
      by_cases hpl : p < 1 ∨ l < 1
      · simp [hpl, handle, errorHandlerAppError]
      · simp [hpl, handle, Except.isOk, Except.toBool]

/-- Closed instance of claim C1: page 0 is rejected with the 400 validation
error, while a request without parameters succeeds. -/
theorem claim_C1_witness :
    (getAllScripts
        { page := some "0", limit := none, search := none,
          sortBy := none, sortOrder := none } [] =
      Except.error { message := invalidPaginationMsg, statusCode := 400 }) ∧
    (getAllScripts
        { page := none, limit := none, search := none,
          sortBy := none, sortOrder := none } []).isOk = true := by
  refine ⟨?_, ?_⟩
  · exact ((claim_C1
      { page := some "0", limit := none, search := none,
        sortBy := none, sortOrder := none } []).1 (by decide)).1
  · exact (claim_C1
      { page := none, limit := none, search := none,
        sortBy := none, sortOrder := none } []).2 (by decide)

/-- C3: the single-random operation fails with the 404 NotFoundError on an
empty collection whatever the fetch-time state (no fetch is consulted); on a
non-empty collection the chosen offset lies in the interval from 0 to the
count, the fetch returns exactly the row at that offset with status 200, and
if the fetch-time state nevertheless has no row at that offset the operation
fails with the 500 InternalError. -/
theorem claim_C3 (dbCount dbFetch : List Script) (num den : Nat)
    (hr : num < den) :
    (dbCount.length = 0 →
      getRandomScript dbCount dbFetch num den =
        Except.error
          { message := "No scripts available to choose from.",
            statusCode := 404 } ∧
      handle (getRandomScript dbCount dbFetch num den) =
        { status := 404,
          body := JsonBody.errorMsg "No scripts available to choose from." }) ∧
    (0 < dbCount.length →
      randomIndex num den dbCount.length < dbCount.length) ∧
    (∀ hidx : randomIndex num den dbCount.length < dbCount.length,
      getRandomScript dbCount dbCount num den =
        Except.ok
          { status := 200,
            body := JsonBody.script
              (dbCount.get ⟨randomIndex num den dbCount.length, hidx⟩) }) ∧
    (0 < dbCount.length →
      (dbFetch.drop (randomIndex num den dbCount.length)).head? = none →
      getRandomScript dbCount dbFetch num den =
        Except.error
          { message := "Failed to retrieve a random script.",
            statusCode := 500 }) := by
  refine ⟨?_, ?_, ?_, ?_⟩
  · intro h0
    unfold getRandomScript
    simp [h0, handle, errorHandlerAppError]
  · intro hpos
    exact randomIndex_lt num den dbCount.length hr hpos
  · intro hidx
    have hne : dbCount.length ≠ 0 :=
      Nat.pos_iff_ne_zero.mp (Nat.lt_of_le_of_lt (Nat.zero_le _) hidx)
    unfold getRandomScript
    simp [hne, List.head?_drop, List.getElem?_eq_getElem hidx]
  · intro hpos hnone
    have hne : dbCount.length ≠ 0 := Nat.pos_iff_ne_zero.mp hpos
    unfold getRandomScript
    simp [hne, hnone]

/-- Closed instance of claim C3: on a one-row collection with random draw
one half the row at offset 0 is returned; on the empty collection the 404
error is produced; and a fetch miss after a positive count produces the 500
error. -/
theorem claim_C3_witness :
    getRandomScript [script1] [script1] 1 2 =
      Except.ok { status := 200, body := JsonBody.script script1 } ∧
    getRandomScript [] [] 1 2 =
      Except.error
        { message := "No scripts available to choose from.",
          statusCode := 404 } ∧
    getRandomScript [script1] [] 1 2 =
      Except.error
        { message := "Failed to retrieve a random script.",
          statusCode := 500 } := by
  refine ⟨?_, ?_, ?_⟩
  · exact (claim_C3 [script1] [script1] 1 2 (by decide)).2.2.1 (by decide)
  · exact ((claim_C3 [] [] 1 2 (by decide)).1 (by decide)).1
  · exact (claim_C3 [script1] [] 1 2 (by decide)).2.2.2 (by decide) (by decide)

/-- C4: for the multiple-random operation, an absent count parameter
defaults to 3; a value parsing to 0 yields the empty 200 success for every
store state alike (no store call); a value parsing to NaN, and a value
parsing negative, each fail with the count ValidationError surfaced as a 400
error body, again for every store state alike. -/
theorem claim_C4 (e : Option String) (db : List Script)
    (shuffle : List Script → List Script) :
    parseCountParam none = CountParse.value 3 ∧
    getRandomScripts none e db shuffle =
      getRandomScripts (some "3") e db shuffle ∧
    (∀ s : String, parseIntJs s = some 0 →
      getRandomScripts (some s) e db shuffle =
        Except.ok { status := 200, body := JsonBody.scripts [] }) ∧
    (∀ s : String, s ≠ "" → parseIntJs s = none →
      getRandomScripts (some s) e db shuffle =
        Except.error { message := invalidCountMsg, statusCode := 400 } ∧
      handle (getRandomScripts (some s) e db shuffle) =
        { status := 400, body := JsonBody.errorMsg invalidCountMsg }) ∧
    (∀ (s : String) (v : Int), parseIntJs s = some v → v < 0 →
      getRandomScripts (some s) e db shuffle =
        Except.error { message := invalidCountMsg, statusCode := 400 } ∧
      handle (getRandomScripts (some s) e db shuffle) =
        { status := 400, body := JsonBody.errorMsg invalidCountMsg }) := by
  refine ⟨rfl, ?_, ?_, ?_, ?_⟩
  · have h3 : parseCountParam (some "3") = CountParse.value 3 := by decide
    have h0 : parseCountParam none = CountParse.value 3 := rfl
    simp [getRandomScripts, h3, h0]
  · intro s hs
    have hne : s ≠ "" := by
      intro h
      rw [h] at hs
      exact absurd hs (by decide)
    unfold getRandomScripts parseCountParam
    simp [hne, hs]
  · intro s hne hs
    unfold getRandomScripts parseCountParam
    simp [hne, hs, handle, errorHandlerAppError]
  · intro s v hs hv
    have hne : s ≠ "" := by
      intro h
      rw [h, show parseIntJs "" = none from rfl] at hs
      exact Option.noConfusion hs
    have hv0 : v ≠ 0 := by omega
    unfold getRandomScripts parseCountParam
    simp [hne, hs, hv0, hv, handle, errorHandlerAppError]

/-- Closed instance of claim C4: count 0 yields the empty success, count
abc and count -2 yield the 400 validation error, and the absent count
behaves as the explicit default 3. -/
theorem claim_C4_witness :
    getRandomScripts (some "0") none [] id =
      Except.ok { status := 200, body := JsonBody.scripts [] } ∧
    getRandomScripts (some "abc") none [] id =
      Except.error { message := invalidCountMsg, statusCode := 400 } ∧
    getRandomScripts (some "-2") none [] id =
      Except.error { message := invalidCountMsg, statusCode := 400 } ∧
    getRandomScripts none none [] id = getRandomScripts (some "3") none [] id := by
  refine ⟨?_, ?_, ?_, ?_⟩
  · exact (claim_C4 none [] id).2.2.1 "0" (by decide)
  · exact ((claim_C4 none [] id).2.2.2.1 "abc" (by decide) (by decide)).1
  · exact ((claim_C4 none [] id).2.2.2.2 "-2" (-2) (by decide) (by decide)).1
  · exact (claim_C4 none [] id).2.1

/-- C6: when the multiple-random operation sees an empty population after
count handling chose a sample size, it answers 404 with a body keyed by
message, while the single-random operation's empty-population failure is
surfaced by the error handler as a 404 body keyed by error; the two body
shapes are distinct constructors. -/
theorem claim_C6 :
    (∀ (cs e : Option String) (db : List Script)
        (shuffle : List Script → List Script) (c : Int),
      parseCountParam cs = CountParse.value c → db.length = 0 →
      getRandomScripts cs e db shuffle =
        Except.ok
          { status := 404,
            body := JsonBody.messageMsg
              "No scripts available in the database." }) ∧
    (∀ (dbFetch : List Script) (num den : Nat),
      handle (getRandomScript [] dbFetch num den) =
        { status := 404,
          body := JsonBody.errorMsg "No scripts available to choose from." }) ∧
    (∀ s t : String, JsonBody.messageMsg s ≠ JsonBody.errorMsg t) := by
  refine ⟨?_, ?_, ?_⟩
  · intro cs e db shuffle c hc h0
    unfold getRandomScripts
    rw [hc]
    simp [h0]
  · intro dbFetch num den
    rfl
  · intro s t h
    cases h

/-- Closed instance of claim C6: the two empty-population responses at
concrete inputs, with their distinct body shapes. -/
theorem claim_C6_witness :
    getRandomScripts (some "2") none [] id =
      Except.ok
        { status := 404,
          body := JsonBody.messageMsg
            "No scripts available in the database." } ∧
    handle (getRandomScript [] [] 0 1) =
      { status := 404,
        body := JsonBody.errorMsg "No scripts available to choose from." } ∧
    JsonBody.messageMsg "No scripts available in the database." ≠
      JsonBody.errorMsg "No scripts available to choose from." := by
  refine ⟨?_, ?_, ?_⟩
  · exact claim_C6.1 (some "2") none [] id 2 (by decide) (by decide)
  · exact claim_C6.2.1 [] 0 1
  · exact claim_C6.2.2 _ _

/-- C9: the effective exclusion set is the comma split of the parameter with
each segment trimmed and empty segments removed; whenever that set is empty
the sampling WHERE clause is the match-all clause and the whole operation
behaves exactly as if no excludeIds parameter had been supplied. -/
theorem claim_C9 (v : String) (cs : Option String) (db : List Script)
    (shuffle : List Script → List Script) :
    parseExcludeIds (some v) =
      ((splitCommas v).map jsTrim).filter (fun t => ¬ t = "") ∧
    (∀ e : Option String, parseExcludeIds e = [] →
      randomWhereSql (parseExcludeIds e) = [SqlPart.raw "WHERE 1=1"] ∧
      getRandomScripts cs e db shuffle = getRandomScripts cs none db shuffle) := by
  constructor
  · by_cases hv : v = ""
    · subst hv
      decide
    · simp [parseExcludeIds, hv]
  · intro e he
    constructor
    · rw [he]
      rfl
    · have h0 : parseExcludeIds none = [] := rfl
      cases hpc : parseCountParam cs <;>
        simp [getRandomScripts, hpc, he, h0]

/-- Closed instance of claim C9: a parameter consisting only of commas and
whitespace has an empty exclusion set, produces the match-all clause and
behaves as an absent parameter; a mixed parameter is split, trimmed and
cleaned. -/
theorem claim_C9_witness :
    parseExcludeIds (some " ,  ,") = [] ∧
    randomWhereSql (parseExcludeIds (some " ,  ,")) = [SqlPart.raw "WHERE 1=1"] ∧
    getRandomScripts (some "2") (some " ,  ,") [] id =
      getRandomScripts (some "2") none [] id ∧
    parseExcludeIds (some " id1 ,, id2") =
      ((splitCommas " id1 ,, id2").map jsTrim).filter (fun t => ¬ t = "") := by
  obtain ⟨h1, h2⟩ := claim_C9 " id1 ,, id2" (some "2") [] id
  have h3 := h2 (some " ,  ,") (by decide)
  exact ⟨by decide, h3.1, h3.2, h1⟩

lemma jsCeilDiv_eq_ceil (a b : Int) (hb : 0 < b) :
    jsCeilDiv a b = ⌈(a : ℚ) / (b : ℚ)⌉ := by
  have hb2 : ((b.toNat : ℕ) : ℚ) = (b : ℚ) := by
    rw [← Int.cast_natCast, Int.toNat_of_nonneg hb.le]
  have h1 : (a : ℚ) / (b : ℚ) = -(((-a : ℤ) : ℚ) / ((b.toNat : ℕ) : ℚ)) := by
    rw [hb2]
    push_cast
    ring
  rw [h1, Int.ceil_neg, Rat.floor_intCast_div_natCast]
  show -(-a / b) = -(-a / (b.toNat : ℤ))
  rw [Int.toNat_of_nonneg hb.le]

lemma length_insertRow (le : Script → Script → Bool) (a : Script)
    (l : List Script) : (insertRow le a l).length = l.length + 1 := by
  induction l with
  | nil => rfl
  | cons b rest ih =>
    unfold insertRow
    split
    · rfl
    · simp [ih]

lemma length_sortRows (sortBy sortOrder : String) (rows : List Script) :
    (sortRows sortBy sortOrder rows).length = rows.length := by
  induction rows with
  | nil => rfl
  | cons r rest ih =>
    show (insertRow _ r (rest.foldr _ [])).length = rest.length + 1
    rw [length_insertRow]
    exact congrArg (· + 1) ih

/-- C2: a valid listing request receives status 200 with the page rows taken
at offset (page - 1) * limit from the sorted filtered collection, at most
limit rows, and pagination metadata carrying the total count, the current
page, the page size, the normalized sort values, and a total page count that
is the ceiling of totalItems over limit, equal to 0 when totalItems is 0;
a page starting beyond the collection yields an empty data array rather
than an error. -/
theorem claim_C2 (q : ListQuery) (db : List Script) (p l : Int)
    (hp : parseIntJs (jsOr q.page "1") = some p)
    (hl : parseIntJs (jsOr q.limit "10") = some l)
    (hp1 : 1 ≤ p) (hl1 : 1 ≤ l) :
    getAllScripts q db =
      Except.ok
        { status := 200,
          body := JsonBody.listing
            { data := ((sortRows (normalizeSortBy q.sortBy)
                (normalizeSortOrder q.sortOrder)
                (db.filter (matchesSearch q.search))).drop
                  ((p - 1) * l).toNat).take l.toNat,
              pagination :=
                { totalItems :=
                    some ((db.filter (matchesSearch q.search)).length : Int),
                  currentPage := p,
                  totalPages :=
                    some (jsCeilDiv
                      ((db.filter (matchesSearch q.search)).length : Int) l),
                  pageSize := l,
                  sortBy := normalizeSortBy q.sortBy,
                  sortOrder := normalizeSortOrder q.sortOrder } } } ∧
    (∀ lr : ListResponse,
      getAllScripts q db =
        Except.ok { status := 200, body := JsonBody.listing lr } →
      lr.data.length ≤ l.toNat ∧
      lr.pagination.totalPages =
        some ⌈((db.filter (matchesSearch q.search)).length : ℚ) / (l : ℚ)⌉ ∧
      ((db.filter (matchesSearch q.search)).length = 0 →
        lr.pagination.totalPages = some 0) ∧
      ((db.filter (matchesSearch q.search)).length ≤ ((p - 1) * l).toNat →
        lr.data = [])) := by
  have hmain : getAllScripts q db =
      Except.ok
        { status := 200,
          body := JsonBody.listing
            { data := ((sortRows (normalizeSortBy q.sortBy)
                (normalizeSortOrder q.sortOrder)
                (db.filter (matchesSearch q.search))).drop
                  ((p - 1) * l).toNat).take l.toNat,
              pagination :=
                { totalItems :=
                    some ((db.filter (matchesSearch q.search)).length : Int),
                  currentPage := p,
                  totalPages :=
                    some (jsCeilDiv
                      ((db.filter (matchesSearch q.search)).length : Int) l),
                  pageSize := l,
                  sortBy := normalizeSortBy q.sortBy,
                  sortOrder := normalizeSortOrder q.sortOrder } } } := by
    unfold getAllScripts
    rw [hp, hl]
    simp only []
    rw [if_neg (by omega)]
    rfl
  refine ⟨hmain, ?_⟩
  intro lr hlr
  rw [hmain] at hlr
  simp only [Except.ok.injEq, HttpResponse.mk.injEq, JsonBody.listing.injEq,
    true_and] at hlr
  subst hlr
  refine ⟨?_, ?_, ?_, ?_⟩
  · exact List.length_take_le _ _
  · exact congrArg some (jsCeilDiv_eq_ceil _ _ (by omega))
  · intro h0
    show some (jsCeilDiv ((db.filter (matchesSearch q.search)).length : Int) l)
      = some 0
    rw [h0]
    show some (-(-(0 : Int) / l)) = some 0
    simp
  · intro hbeyond
    show ((sortRows (normalizeSortBy q.sortBy) (normalizeSortOrder q.sortOrder)
        (db.filter (matchesSearch q.search))).drop ((p - 1) * l).toNat).take
          l.toNat = []
    rw [List.drop_eq_nil_of_le, List.take_nil]
    rw [length_sortRows]
    exact hbeyond

/-- Closed instance of claim C2: three rows, title sort ascending, page 2 of
size 2 holds the single remaining row and the metadata echoes the normalized
sort with total pages 2. -/
theorem claim_C2_witness :
    getAllScripts
        { page := some "2", limit := some "2", search := none,
          sortBy := some "title", sortOrder := some "asc" }
        [script1, script2, script3] =
      Except.ok
        { status := 200,
          body := JsonBody.listing
            { data := [script3],
              pagination :=
                { totalItems := some 3, currentPage := 2, totalPages := some 2,
                  pageSize := 2, sortBy := "title", sortOrder := "asc" } } } ∧
    ([script3].length ≤ (2 : Int).toNat) := by
  obtain ⟨h1, h2⟩ := claim_C2
    { page := some "2", limit := some "2", search := none,
      sortBy := some "title", sortOrder := some "asc" }
    [script1, script2, script3] 2 2 (by decide) (by decide) (by decide)
    (by decide)
  have he := h1.trans (by rfl)
  exact ⟨he, (h2 _ he).1⟩

/-- C5: for a multiple-random request whose count handling produced a sample
size and whose population is non-empty, the result is a 200 success holding
the shuffled exclusion-filtered rows truncated to min(count, N) where N is
the unfiltered total count; the result never holds an excluded id and never
exceeds min(count, N) rows, and a result shorter than count is still this
same success. -/
theorem claim_C5 (cs e : Option String) (db : List Script)
    (shuffle : List Script → List Script) (c : Int)
    (hc : parseCountParam cs = CountParse.value c)
    (hN : 0 < db.length)
    (hsh : ∀ l : List Script, (shuffle l).Perm l) :
    getRandomScripts cs e db shuffle =
      Except.ok
        { status := 200,
          body := JsonBody.scripts
            ((shuffle (if (parseExcludeIds e).length > 0 then
                db.filter (fun s => !((parseExcludeIds e).contains s.id))
              else db)).take (min c (db.length : Int)).toNat) } ∧
    (∀ res : List Script,
      getRandomScripts cs e db shuffle =
        Except.ok { status := 200, body := JsonBody.scripts res } →
      res.length ≤ (min c (db.length : Int)).toNat ∧
      ∀ s ∈ res, s.id ∉ parseExcludeIds e) := by
  have hne : db.length ≠ 0 := Nat.pos_iff_ne_zero.mp hN
  have hdb : ¬ db = [] := fun h => hne (by rw [h]; rfl)
  have hmain : getRandomScripts cs e db shuffle =
      Except.ok
        { status := 200,
          body := JsonBody.scripts
            ((shuffle (if (parseExcludeIds e).length > 0 then
                db.filter (fun s => !((parseExcludeIds e).contains s.id))
              else db)).take (min c (db.length : Int)).toNat) } := by
    unfold getRandomScripts
    rw [hc]
    simp [hne]
  refine ⟨hmain, ?_⟩
  intro res hres
  rw [hmain] at hres
  simp only [Except.ok.injEq, HttpResponse.mk.injEq, JsonBody.scripts.injEq,
    true_and] at hres
  subst hres
  refine ⟨List.length_take_le _ _, ?_⟩
  intro s hs hmem
  have hs1 : s ∈ shuffle (if (parseExcludeIds e).length > 0 then
      db.filter (fun r => !((parseExcludeIds e).contains r.id)) else db) :=
    List.mem_of_mem_take hs
  have hs2 := (hsh _).mem_iff.mp hs1
  by_cases hex : (parseExcludeIds e).length > 0
  · rw [if_pos hex] at hs2
    have hcontains := (List.mem_filter.mp hs2).2
    simp only [Bool.not_eq_eq_eq_not, Bool.not_true] at hcontains
    have helem : (parseExcludeIds e).contains s.id = true :=
      List.elem_eq_true_of_mem hmem
    rw [helem] at hcontains
    cases hcontains
  · rw [if_neg hex] at hs2
    have : parseExcludeIds e = [] :=
      List.length_eq_zero.mp (Nat.eq_zero_of_not_pos hex)
    rw [this] at hmem
    exact List.not_mem_nil _ hmem

/-- Closed instance of claim C5: three rows, count 2, excluding the first
row's id, yields exactly the two other rows and no excluded id. -/
theorem claim_C5_witness :
    getRandomScripts (some "2") (some "id1") [script1, script2, script3] id =
      Except.ok { status := 200, body := JsonBody.scripts [script2, script3] } ∧
    script2.id ∉ parseExcludeIds (some "id1") ∧
    script3.id ∉ parseExcludeIds (some "id1") := by
  obtain ⟨h1, h2⟩ := claim_C5 (some "2") (some "id1")
    [script1, script2, script3] id 2 (by decide) (by decide)
    (fun l => List.Perm.refl l)
  have he := h1.trans (by rfl)
  obtain ⟨_, h3⟩ := h2 [script2, script3] he
  exact ⟨he, h3 script2 (by simp), h3 script3 (by simp)⟩

lemma normalizeSortOrder_cases (v : Option String) :
    normalizeSortOrder v = "asc" ∨ normalizeSortOrder v = "desc" := by
  unfold normalizeSortOrder
  split
  · exact Or.inr rfl
  · rename_i h
    rcases not_and_or.mp h with h1 | h1
    · exact Or.inl (not_not.mp h1)
    · exact Or.inr (not_not.mp h1)

lemma normalizeSortBy_cases (v : Option String) :
    normalizeSortBy v = "title" ∨ normalizeSortBy v = "createdAt" := by
  unfold normalizeSortBy
  split
  · rename_i h
    simp only [allowedSortFields, List.contains_cons, List.contains_nil,
      Bool.or_eq_true, beq_iff_eq] at h
    rcases h with h | h | h
    · exact Or.inl h
    · exact Or.inr h
    · cases h
  · exact Or.inr rfl

/-- C7 as stated is refuted at the input ASC: the raw value is not in the
allow-list of asc and desc, yet the echoed sortOrder is asc, not the default
desc, because the controller lowercases before the allow-list check. -/
theorem claim_C7_counterexample :
    ¬ ("ASC" = "asc" ∨ "ASC" = "desc") ∧
    getAllScripts
        { page := none, limit := none, search := none,
          sortBy := none, sortOrder := some "ASC" } [] =
      Except.ok
        { status := 200,
          body := JsonBody.listing
            { data := [],
              pagination :=
                { totalItems := some 0, currentPage := 1, totalPages := some 0,
                  pageSize := 10, sortBy := "createdAt",
                  sortOrder := "asc" } } } ∧
    ("asc" : String) ≠ "desc" :=
  ⟨by decide, by rfl, by decide⟩

/-- C7 amended: sortBy and sortOrder never cause a validation failure; a
sortBy outside the allow-list normalizes to createdAt; sortOrder is
lowercased first and any value whose lowercasing is outside asc and desc
normalizes to desc; the normalized values, not the raw inputs, are echoed in
the pagination metadata. -/
theorem claim_C7_amended (q : ListQuery) (db : List Script) :
    (∀ v : String, ¬ (v = "title" ∨ v = "createdAt") →
      normalizeSortBy (some v) = "createdAt") ∧
    (∀ v : String, ¬ (toLowerJs v = "asc" ∨ toLowerJs v = "desc") →
      normalizeSortOrder (some v) = "desc") ∧
    ((getAllScripts
        { page := q.page, limit := q.limit, search := q.search,
          sortBy := none, sortOrder := none } db).isOk =
      (getAllScripts q db).isOk) ∧
    (∀ (lr : ListResponse) (st : Nat),
      getAllScripts q db =
        Except.ok { status := st, body := JsonBody.listing lr } →
      lr.pagination.sortBy = normalizeSortBy q.sortBy ∧
      lr.pagination.sortOrder = normalizeSortOrder q.sortOrder) := by
  refine ⟨?_, ?_, ?_, ?_⟩
  · intro v hv
    have h1 : ¬ v = "title" := fun h => hv (Or.inl h)
    have h2 : ¬ v = "createdAt" := fun h => hv (Or.inr h)
    by_cases hv0 : v = ""
    · subst hv0
      decide
    · simp [normalizeSortBy, jsOr, allowedSortFields, hv0, h1, h2]
  · intro v hv
    have h1 : ¬ toLowerJs v = "asc" := fun h => hv (Or.inl h)
    have h2 : ¬ toLowerJs v = "desc" := fun h => hv (Or.inr h)
    by_cases hv0 : v = ""
    · subst hv0
      decide
    · simp [normalizeSortOrder, jsOr, hv0, h1, h2]
  · unfold getAllScripts
    cases hp : parseIntJs (jsOr q.page "1") with
    | none => rfl
    | some p =>
      cases hl : parseIntJs (jsOr q.limit "10") with
      | none => rfl
      | some l =>
        by_cases hpl : p < 1 ∨ l < 1
        · simp [hpl]
        · simp [hpl, Except.isOk, Except.toBool]
  · intro lr st h
    unfold getAllScripts at h
    rcases hp : parseIntJs (jsOr q.page "1") with _ | p
    · rw [hp] at h
      exact absurd h (by simp)
    rcases hl : parseIntJs (jsOr q.limit "10") with _ | l
    · rw [hp, hl] at h
      exact absurd h (by simp)
    rw [hp, hl] at h
    simp only [] at h
    by_cases hpl : p < 1 ∨ l < 1
    · rw [if_pos hpl] at h
      exact absurd h (by simp)
    · rw [if_neg hpl] at h
      simp only [getAllScriptsRaw, Except.ok.injEq,
        HttpResponse.mk.injEq, JsonBody.listing.injEq] at h
      rw [← h.2]
      exact ⟨rfl, rfl⟩

/-- Closed instance of the amended claim C7: a sortBy outside the allow-list
normalizes to createdAt, a sortOrder whose lowercasing is not asc or desc
normalizes to desc, and the sort parameters do not affect whether the
request succeeds. -/
theorem claim_C7_amended_witness :
    normalizeSortBy (some "foo") = "createdAt" ∧
    normalizeSortOrder (some "up") = "desc" ∧
    (getAllScripts
        { page := none, limit := none, search := none,
          sortBy := some "foo", sortOrder := some "up" } []).isOk = true := by
  obtain ⟨h1, h2, h3, _⟩ := claim_C7_amended
    { page := none, limit := none, search := none,
      sortBy := some "foo", sortOrder := some "up" } []
  refine ⟨h1 "foo" (by decide), h2 "up" (by decide), ?_⟩
  rw [← h3]
  rfl

lemma raw_mem_whereClauseSql (st : Option String) (f : String)
    (hf : SqlPart.raw f ∈ whereClauseSql st) :
    f = "WHERE 1=1" ∨ f = "WHERE title ILIKE " ∨
    f = " OR EXISTS (SELECT 1 FROM unnest(characters) AS char WHERE char ILIKE " ∨
    f = ") OR EXISTS (SELECT 1 FROM jsonb_array_elements(lines) AS line WHERE line->>"
      ++ sq ++ "dialogue" ++ sq ++ " ILIKE " ∨
    f = ")" := by
  cases st <;> simp [whereClauseSql] at hf <;> tauto

lemma raw_mem_orderBySql (sb so f : String)
    (hf : SqlPart.raw f ∈ orderBySql sb so) :
    f = "ORDER BY LOWER(\"title\") " ∨ f = "ORDER BY \"createdAt\" " ∨ f = so := by
  unfold orderBySql at hf
  split at hf <;> simp at hf <;> tauto

lemma raw_mem_dataQuerySql (st : Option String) (sb so : String)
    (limit skip : Int) (f : String)
    (hf : SqlPart.raw f ∈ dataQuerySql st sb so limit skip) :
    f = "SELECT * FROM script_snips " ∨ SqlPart.raw f ∈ whereClauseSql st ∨
    SqlPart.raw f ∈ orderBySql sb so ∨ f = " LIMIT " ∨ f = " OFFSET " ∨
    f = ";" := by
  unfold dataQuerySql at hf
  simp only [List.mem_append, List.mem_cons, List.not_mem_nil, or_false,
    SqlPart.raw.injEq, reduceCtorEq, false_or] at hf
  tauto

lemma raw_mem_countQuerySql (st : Option String) (f : String)
    (hf : SqlPart.raw f ∈ countQuerySql st) :
    f = "SELECT COUNT(*) FROM script_snips " ∨
    SqlPart.raw f ∈ whereClauseSql st ∨ f = ";" := by
  unfold countQuerySql at hf
  simp only [List.mem_append, List.mem_cons, List.not_mem_nil, or_false,
    SqlPart.raw.injEq, reduceCtorEq, false_or] at hf
  tauto

/-- C8: for every listing request, every raw text fragment of the data and
count queries belongs to a fixed input-independent list whose only
direction-position entries are the two pre-validated literals asc and desc
(and the normalized direction is always one of those two), while the search
term reaches the queries only as a bound parameter. -/
theorem claim_C8 (search sortByQ sortOrderQ : Option String)
    (limit skip : Int) :
    (∀ f : String,
      SqlPart.raw f ∈ dataQuerySql (mkSearchTerm search)
          (normalizeSortBy sortByQ) (normalizeSortOrder sortOrderQ) limit skip →
      f ∈ listingAllowedRaw) ∧
    (∀ f : String,
      SqlPart.raw f ∈ countQuerySql (mkSearchTerm search) →
      f ∈ listingAllowedRaw) ∧
    (normalizeSortOrder sortOrderQ = "asc" ∨
      normalizeSortOrder sortOrderQ = "desc") ∧
    (∀ t : String, mkSearchTerm search = some t →
      SqlPart.bound (SqlParam.strv t) ∈ dataQuerySql (mkSearchTerm search)
        (normalizeSortBy sortByQ) (normalizeSortOrder sortOrderQ) limit
        skip) := by
  have hso := normalizeSortOrder_cases sortOrderQ
  refine ⟨?_, ?_, hso, ?_⟩
  · intro f hf
    rcases raw_mem_dataQuerySql _ _ _ _ _ _ hf with h | h | h | h | h | h
    · subst h; decide
    · rcases raw_mem_whereClauseSql _ _ h with h1 | h1 | h1 | h1 | h1 <;>
        (subst h1; decide)
    · rcases raw_mem_orderBySql _ _ _ h with h1 | h1 | h1
      · subst h1; decide
      · subst h1; decide
      · subst h1
        rcases hso with hso | hso <;> rw [hso] <;> decide
    · subst h; decide
    · subst h; decide
    · subst h; decide
  · intro f hf
    rcases raw_mem_countQuerySql _ _ hf with h | h | h
    · subst h; decide
    · rcases raw_mem_whereClauseSql _ _ h with h1 | h1 | h1 | h1 | h1 <;>
        (subst h1; decide)
    · subst h; decide
  · intro t ht
    rw [ht]
    simp [dataQuerySql, whereClauseSql]

/-- Closed instance of claim C8: the match-all fragment is in the allowed
list, an arbitrary sortOrder normalizes into the two permitted direction
literals, and a concrete search term is bound into the data query. -/
theorem claim_C8_witness :
    ("WHERE 1=1" ∈ listingAllowedRaw) ∧
    (normalizeSortOrder (some "junk") = "asc" ∨
      normalizeSortOrder (some "junk") = "desc") ∧
    SqlPart.bound (SqlParam.strv "%boo%") ∈
      dataQuerySql (mkSearchTerm (some "boo")) (normalizeSortBy none)
        (normalizeSortOrder (some "junk")) 10 0 := by
  obtain ⟨h1, h2, h3, h4⟩ := claim_C8 (some "boo") none (some "junk") 10 0
  obtain ⟨g1, g2, g3, g4⟩ := claim_C8 none none none 10 0
  exact ⟨g1 "WHERE 1=1" (by decide), h3, h4 "%boo%" (by decide)⟩

/-- C10 concerns the defensive count extraction: when the count-query result
fails the shape check (not an array, empty, nullish first row, or no count
property) the code does default totalItems to 0 and still respond 200; but
when the count property is present and unparseable, parseInt yields NaN
without throwing, the catch arm documented as defaulting to 0 is
unreachable, and the 200 response carries NaN (modelled as none) rather
than the documented 0. -/
theorem claim_C10_code_behavior :
    extractTotalScripts
        (JsCountResult.array [JsCountRow.obj (some (JsVal.str "oops"))]) =
      none ∧
    getAllScriptsRaw 1 10 "createdAt" "desc" []
        (JsCountResult.array [JsCountRow.obj (some (JsVal.str "oops"))]) =
      { status := 200,
        body := JsonBody.listing
          { data := [],
            pagination :=
              { totalItems := none, currentPage := 1, totalPages := none,
                pageSize := 10, sortBy := "createdAt",
                sortOrder := "desc" } } } ∧
    (none : Option Int) ≠ some 0 ∧
    extractTotalScripts JsCountResult.notArray = some 0 ∧
    extractTotalScripts (JsCountResult.array []) = some 0 ∧
    extractTotalScripts (JsCountResult.array [JsCountRow.nullish]) = some 0 ∧
    extractTotalScripts (JsCountResult.array [JsCountRow.obj none]) = some 0 ∧
    getAllScriptsRaw 1 10 "createdAt" "desc" [] JsCountResult.notArray =
      { status := 200,
        body := JsonBody.listing
          { data := [],
            pagination :=
              { totalItems := some 0, currentPage := 1, totalPages := some 0,
                pageSize := 10, sortBy := "createdAt",
                sortOrder := "desc" } } } :=
  ⟨rfl, rfl, by decide, rfl, rfl, rfl, rfl, rfl⟩

end ScriptSnipsApi
